import Mathlib

/- Shallow embedding of the LP50XX LED driver (src/LP50XX.cpp together
with its header LP50XX.h).  Bus and pin side effects are modelled as an
explicit trace of events, bytes are `Nat` values truncated modulo 256
exactly where the C++ code performs an implicit conversion to `uint8_t`,
and a register read takes the byte returned by the bus as an explicit
argument (the environment's response). -/

/-- Register map constants from LP50XX.h. -/
def DEVICE_CONFIG0 : Nat := 0x00

/-- Configuration register: Log_scale, Power_save, Auto_inc, PWM_dithering,
Max_current_option and LED_Global_off bits. -/
def DEVICE_CONFIG1 : Nat := 0x01

/-- Bank configuration register. -/
def LED_CONFIG0 : Nat := 0x02

/-- Bank brightness register. -/
def BANK_BRIGHTNESS : Nat := 0x03

/-- Bank color A register. -/
def BANK_A_COLOR : Nat := 0x04

/-- Bank color B register. -/
def BANK_B_COLOR : Nat := 0x05

/-- Bank color C register. -/
def BANK_C_COLOR : Nat := 0x06

/-- Brightness register of LED 0. -/
def LED0_BRIGHTNESS : Nat := 0x07

/-- Color register of output 0. -/
def OUT0_COLOR : Nat := 0x0F

/-- Reset register: writing 0xFF resets all registers. -/
def RESET_REGISTERS : Nat := 0x27

/-- Default I2C address from LP50XX.h. -/
def DEFAULT_ADDRESS : Nat := 0x14

/-- Broadcast I2C address from LP50XX.h. -/
def BROADCAST_ADDRESS : Nat := 0x0C

/-- Configuration flag AUTO_INC_ON = 1 << 3 from enum LP50XX_Configuration. -/
def AUTO_INC_ON : Nat := 1 <<< 3

/-- Configuration flag AUTO_INC_OFF = 0 << 3 from enum LP50XX_Configuration. -/
def AUTO_INC_OFF : Nat := 0 <<< 3

/-- The LED_Configuration enum of LP50XX.h: the six channel orderings. -/
inductive LED_Configuration where
  | RGB
  | GRB
  | BGR
  | RBG
  | GBR
  | BRG
deriving DecidableEq

/-- The EAddressType enum of LP50XX.h is a C++ enumeration whose underlying
values are Normal = 0 and Broadcast = 1; it is modelled by its underlying
integer so that the default-case fallback of `getAddress` on values outside
the enumeration is expressible. -/
def EAddressType.Normal : Nat := 0

/-- Underlying value of EAddressType::Broadcast. -/
def EAddressType.Broadcast : Nat := 1

/-- Truncation to uint8_t, applied where the C++ code implicitly converts an
int arithmetic result back to a uint8_t function parameter. -/
def u8 (n : Nat) : Nat := n % 256

/-- One observable side effect of the driver: an I2C transaction, a digital
pin write, a bus initialisation, or a blocking delay.  A read event records
the byte the bus returned. -/
inductive Event where
  | i2cInit : Event
  | digitalWrite (pin : Nat) (high : Bool) : Event
  | delayMicroseconds (us : Nat) : Event
  | delay (ms : Nat) : Event
  | i2cWriteByte (addr reg value : Nat) : Event
  | i2cReadByte (addr reg value : Nat) : Event
  | i2cWriteMulti (addr reg : Nat) (bytes : List Nat) : Event
deriving DecidableEq

/-- Recognises the multi-byte burst write events in a trace. -/
def Event.isBurst : Event → Bool
  | .i2cWriteMulti _ _ _ => true
  | _ => false

/-- The mutable fields of the LP50XX class: primary I2C address, broadcast
I2C address (default BROADCAST_ADDRESS), enable pin (0xFF meaning none) and
the LED channel ordering (default RGB). -/
structure LP50XX where
  i2c_address : Nat
  i2c_address_broadcast : Nat := BROADCAST_ADDRESS
  enable_pin : Nat := 0xFF
  led_configuration : LED_Configuration := .RGB
deriving DecidableEq

/-- LP50XX::getAddress: the switch on the EAddressType value, with
`case Broadcast` returning the broadcast address and `case Normal` sharing
the `default` branch that returns the primary address. -/
def LP50XX.getAddress (st : LP50XX) (addressType : Nat) : Nat :=
  if addressType = EAddressType.Broadcast then st.i2c_address_broadcast
  else st.i2c_address

/-- Result of LP50XX::Begin: the updated object, the emitted trace and the
boolean return value. -/
structure BeginResult where
  chip : LP50XX
  trace : List Event
  ret : Bool
deriving DecidableEq

/-- LP50XX::Begin: i2c_init, store the address, drive the enable pin high
when one is configured, wait 500 us, then write 1 << 6 to DEVICE_CONFIG0 at
the stored address, and return true.  The outcome of the underlying bus
write is taken as a parameter and, as in the source, ignored. -/
def LP50XX.Begin (st : LP50XX) (i2cAddress : Nat) (writeOutcome : Bool) : BeginResult :=
  let st1 : LP50XX := { st with i2c_address := i2cAddress }
  { chip := st1
    trace :=
      [Event.i2cInit]
      ++ (if st1.enable_pin ≠ 0xFF then [Event.digitalWrite st1.enable_pin true] else [])
      ++ [Event.delayMicroseconds 500,
          Event.i2cWriteByte st1.i2c_address DEVICE_CONFIG0 (1 <<< 6)]
    ret := (fun _ => true) writeOutcome }

/-- LP50XX::ResetRegisters: a single write of 0xFF to RESET_REGISTERS at the
resolved address. -/
def LP50XX.ResetRegisters (st : LP50XX) (addressType : Nat) : List Event :=
  [Event.i2cWriteByte (st.getAddress addressType) RESET_REGISTERS 0xFF]

/-- LP50XX::Reset: when an enable pin is configured, pin low, 10 ms delay,
pin high, 500 us delay; always followed by ResetRegisters at the default
Normal address and the DEVICE_CONFIG0 rewrite of 1 << 6. -/
def LP50XX.Reset (st : LP50XX) : List Event :=
  (if st.enable_pin ≠ 0xFF then
    [Event.digitalWrite st.enable_pin false,
     Event.delay 10,
     Event.digitalWrite st.enable_pin true,
     Event.delayMicroseconds 500]
   else [])
  ++ st.ResetRegisters EAddressType.Normal
  ++ [Event.i2cWriteByte st.i2c_address DEVICE_CONFIG0 (1 <<< 6)]

/-- LP50XX::Configure: one write of `configuration & 0x3F` to DEVICE_CONFIG1
at the resolved address. -/
def LP50XX.Configure (st : LP50XX) (configuration : Nat) (addressType : Nat) : List Event :=
  [Event.i2cWriteByte (st.getAddress addressType) DEVICE_CONFIG1 (configuration &&& 0x3F)]

/-- Shared body of the six configuration bit setters: the input is masked to
bit `k` (`input & (1 << k)`), bit `k` of the masked value is tested
(`masked >> k & 1`), and the read byte `buff` gets bit `k` set
(`buff |= 1 << k`) or cleared (`buff &= ~(1 << k)`, which on a uint8_t value
equals masking with `0xFF ^ (1 << k)`). -/
def configBitWrite (k : Nat) (input buff : Nat) : Nat :=
  let masked := input &&& (1 <<< k)
  if (masked >>> k) &&& 1 = 1 then buff ||| (1 <<< k)
  else buff &&& (0xFF ^^^ (1 <<< k))

/-- LP50XX::SetScaling: read DEVICE_CONFIG1 at the primary address into
`buff`, update bit 5 from `scaling`, write the byte back. -/
def LP50XX.SetScaling (st : LP50XX) (scaling : Nat) (buff : Nat) : List Event :=
  [Event.i2cReadByte st.i2c_address DEVICE_CONFIG1 buff,
   Event.i2cWriteByte st.i2c_address DEVICE_CONFIG1 (configBitWrite 5 scaling buff)]

/-- LP50XX::SetPowerSaving: read DEVICE_CONFIG1, update bit 4 from
`powerSave`, write back. -/
def LP50XX.SetPowerSaving (st : LP50XX) (powerSave : Nat) (buff : Nat) : List Event :=
  [Event.i2cReadByte st.i2c_address DEVICE_CONFIG1 buff,
   Event.i2cWriteByte st.i2c_address DEVICE_CONFIG1 (configBitWrite 4 powerSave buff)]

/-- LP50XX::SetAutoIncrement: read DEVICE_CONFIG1, update bit 3 from
`autoInc`, write back. -/
def LP50XX.SetAutoIncrement (st : LP50XX) (autoInc : Nat) (buff : Nat) : List Event :=
  [Event.i2cReadByte st.i2c_address DEVICE_CONFIG1 buff,
   Event.i2cWriteByte st.i2c_address DEVICE_CONFIG1 (configBitWrite 3 autoInc buff)]

/-- LP50XX::SetPWMDithering: read DEVICE_CONFIG1, update bit 2 from
`dithering`, write back. -/
def LP50XX.SetPWMDithering (st : LP50XX) (dithering : Nat) (buff : Nat) : List Event :=
  [Event.i2cReadByte st.i2c_address DEVICE_CONFIG1 buff,
   Event.i2cWriteByte st.i2c_address DEVICE_CONFIG1 (configBitWrite 2 dithering buff)]

/-- LP50XX::SetMaxCurrentOption: read DEVICE_CONFIG1, update bit 1 from
`option`, write back. -/
def LP50XX.SetMaxCurrentOption (st : LP50XX) (option : Nat) (buff : Nat) : List Event :=
  [Event.i2cReadByte st.i2c_address DEVICE_CONFIG1 buff,
   Event.i2cWriteByte st.i2c_address DEVICE_CONFIG1 (configBitWrite 1 option buff)]

/-- LP50XX::SetGlobalLedOff: read DEVICE_CONFIG1, update bit 0 from `value`,
write back. -/
def LP50XX.SetGlobalLedOff (st : LP50XX) (value : Nat) (buff : Nat) : List Event :=
  [Event.i2cReadByte st.i2c_address DEVICE_CONFIG1 buff,
   Event.i2cWriteByte st.i2c_address DEVICE_CONFIG1 (configBitWrite 0 value buff)]

/-- LP50XX::SetBankControl: one write of the led mask to LED_CONFIG0. -/
def LP50XX.SetBankControl (st : LP50XX) (leds : Nat) (addressType : Nat) : List Event :=
  [Event.i2cWriteByte (st.getAddress addressType) LED_CONFIG0 leds]

/-- LP50XX::SetBankBrightness: one write to BANK_BRIGHTNESS. -/
def LP50XX.SetBankBrightness (st : LP50XX) (brightness : Nat) (addressType : Nat) : List Event :=
  [Event.i2cWriteByte (st.getAddress addressType) BANK_BRIGHTNESS brightness]

/-- The channel-order switch shared verbatim by LP50XX::SetBankColor and
LP50XX::SetLEDColor: the 3-byte buffer built from (r, g, b) according to
the LED configuration. -/
def colorBuff (cfg : LED_Configuration) (r g b : Nat) : List Nat :=
  match cfg with
  | .RGB => [r, g, b]
  | .GRB => [g, r, b]
  | .BGR => [b, g, r]
  | .RBG => [r, b, g]
  | .GBR => [g, b, r]
  | .BRG => [b, r, g]

/-- LP50XX::SetBankColor: SetAutoIncrement(AUTO_INC_ON), then one 3-byte
burst write of the permuted buffer starting at BANK_A_COLOR at the resolved
address.  `buff` is the byte the embedded configuration-register read
returns. -/
def LP50XX.SetBankColor (st : LP50XX) (r g b : Nat) (addressType : Nat) (buff : Nat) :
    List Event :=
  st.SetAutoIncrement AUTO_INC_ON buff
  ++ [Event.i2cWriteMulti (st.getAddress addressType) BANK_A_COLOR
        (colorBuff st.led_configuration r g b)]

/-- LP50XX::SetLEDBrightness: one write of the brightness to
`LED0_BRIGHTNESS + led` (int sum truncated to the uint8_t register
parameter). -/
def LP50XX.SetLEDBrightness (st : LP50XX) (led brightness : Nat) (addressType : Nat) :
    List Event :=
  [Event.i2cWriteByte (st.getAddress addressType) (u8 (LED0_BRIGHTNESS + led)) brightness]

/-- LP50XX::SetOutputColor: one write of the value to `OUT0_COLOR + output`
(int sum truncated to the uint8_t register parameter). -/
def LP50XX.SetOutputColor (st : LP50XX) (output value : Nat) (addressType : Nat) :
    List Event :=
  [Event.i2cWriteByte (st.getAddress addressType) (u8 (OUT0_COLOR + output)) value]

/-- LP50XX::SetLEDColor: SetAutoIncrement(AUTO_INC_ON), then one 3-byte
burst write of the permuted buffer starting at `OUT0_COLOR + led * 3` at the
resolved address. -/
def LP50XX.SetLEDColor (st : LP50XX) (led r g b : Nat) (addressType : Nat) (buff : Nat) :
    List Event :=
  st.SetAutoIncrement AUTO_INC_ON buff
  ++ [Event.i2cWriteMulti (st.getAddress addressType) (u8 (OUT0_COLOR + led * 3))
        (colorBuff st.led_configuration r g b)]

/-- LP50XX::WriteRegister: raw single-byte write passthrough. -/
def LP50XX.WriteRegister (st : LP50XX) (reg value : Nat) (addressType : Nat) : List Event :=
  [Event.i2cWriteByte (st.getAddress addressType) reg value]

/-- LP50XX::ReadRegister: raw single-byte read at the primary address. -/
def LP50XX.ReadRegister (st : LP50XX) (reg value : Nat) : List Event :=
  [Event.i2cReadByte st.i2c_address reg value]

/-- Specification pattern for one configuration bit setter on bit `k`: on
every state and for every input value and read-back byte below 256, the
trace is one DEVICE_CONFIG1 read followed by one DEVICE_CONFIG1 write, both
at the primary address, and the written byte agrees with the input on bit
`k` and with the read byte on every other bit. -/
def setterSpec (k : Nat) (op : LP50XX → Nat → Nat → List Event) : Prop :=
  ∀ (st : LP50XX) (input buff : Nat), buff < 256 →
    ∃ v,
      op st input buff =
        [Event.i2cReadByte st.i2c_address DEVICE_CONFIG1 buff,
         Event.i2cWriteByte st.i2c_address DEVICE_CONFIG1 v] ∧
      v.testBit k = input.testBit k ∧
      ∀ j, j ≠ k → v.testBit j = buff.testBit j

/-- The bit test computed by each setter, `(input & (1 << k)) >> k & 1`,
equals 1 exactly when bit `k` of the input is set. -/
theorem setterCond_iff (k input : Nat) :
    (((input &&& (1 <<< k)) >>> k) &&& 1 = 1) ↔ input.testBit k = true := by
  have h2 : ((input &&& (1 <<< k)) >>> k).testBit 0 = input.testBit k := by
    rw [Nat.testBit_shiftRight, Nat.add_zero, Nat.testBit_and, Nat.one_shiftLeft,
        Nat.testBit_two_pow_self, Bool.and_true]
  rw [Nat.and_one_is_mod, ← h2, Nat.testBit_zero]
  exact decide_eq_true_iff.symm

/-- Bit `k` of the byte a setter writes equals bit `k` of the input. -/
theorem configBitWrite_testBit_self (k input buff : Nat) (hk : k < 8) :
    (configBitWrite k input buff).testBit k = input.testBit k := by
  unfold configBitWrite
  by_cases h : ((input &&& (1 <<< k)) >>> k) &&& 1 = 1
  · rw [if_pos h, (setterCond_iff k input).mp h, Nat.testBit_or, Nat.one_shiftLeft,
        Nat.testBit_two_pow_self, Bool.or_true]
  · rw [if_neg h]
    have hi : input.testBit k = false := by
      cases hc : input.testBit k
      · rfl
      · exact absurd ((setterCond_iff k input).mpr hc) h
    have hmask : ((0xFF : Nat) ^^^ (1 <<< k)).testBit k = false := by
      rw [Nat.testBit_xor, Nat.one_shiftLeft, Nat.testBit_two_pow_self]
      have h255 : (0xFF : Nat).testBit k = true := by
        have he : (0xFF : Nat) = 2 ^ 8 - 1 := by norm_num
        rw [he, Nat.testBit_two_pow_sub_one]
        simp [hk]
      rw [h255]
      rfl
    rw [hi, Nat.testBit_and, hmask, Bool.and_false]

/-- Every bit other than `k` of the byte a setter writes equals the same bit
of the byte that was read. -/
theorem configBitWrite_testBit_other (k input buff j : Nat) (hb : buff < 256)
    (hj : j ≠ k) : (configBitWrite k input buff).testBit j = buff.testBit j := by
  unfold configBitWrite
  by_cases h : ((input &&& (1 <<< k)) >>> k) &&& 1 = 1
  · rw [if_pos h, Nat.testBit_or, Nat.one_shiftLeft, Nat.testBit_two_pow_of_ne (Ne.symm hj),
        Bool.or_false]
  · rw [if_neg h, Nat.testBit_and]
    rcases lt_or_ge j 8 with hj8 | hj8
    · have hmask : ((0xFF : Nat) ^^^ (1 <<< k)).testBit j = true := by
        rw [Nat.testBit_xor, Nat.one_shiftLeft, Nat.testBit_two_pow_of_ne (Ne.symm hj)]
        have he : (0xFF : Nat) = 2 ^ 8 - 1 := by norm_num
        rw [he, Nat.testBit_two_pow_sub_one]
        simp [hj8]
      rw [hmask, Bool.and_true]
    · have hbj : buff.testBit j = false := by
        apply Nat.testBit_lt_two_pow
        calc buff < 256 := hb
          _ = 2 ^ 8 := by norm_num
          _ ≤ 2 ^ j := Nat.pow_le_pow_right (by norm_num) hj8
      rw [hbj, Bool.false_and]

/-- C1: For every channel order in {RGB, GRB, BGR, RBG, GBR, BRG} and every
byte triple (r,g,b), the permutation applied by the tri-color write
operations (the `colorBuff` switch shared by SetBankColor and SetLEDColor)
produces exactly the documented physical byte triple: RGB gives (r,g,b),
GRB gives (g,r,b), BGR gives (b,g,r), RBG gives (r,b,g), GBR gives (g,b,r),
BRG gives (b,r,g); in particular permute(GRB, 0x10, 0x20, 0x30) =
(0x20, 0x10, 0x30).  The permutation is a total function on all six
orderings. -/
theorem colorBuff_table :
    (∀ r g b : Nat,
      colorBuff .RGB r g b = [r, g, b] ∧
      colorBuff .GRB r g b = [g, r, b] ∧
      colorBuff .BGR r g b = [b, g, r] ∧
      colorBuff .RBG r g b = [r, b, g] ∧
      colorBuff .GBR r g b = [g, b, r] ∧
      colorBuff .BRG r g b = [b, r, g]) ∧
    colorBuff .GRB 0x10 0x20 0x30 = [0x20, 0x10, 0x30] :=
  ⟨fun _ _ _ => ⟨rfl, rfl, rfl, rfl, rfl, rfl⟩, rfl⟩

/-- C2: Address resolution is a pure function of the selector and the stored
addresses: resolving Normal returns the primary address, resolving Broadcast
returns the broadcast address, and any selector value other than Broadcast
resolves identically to Normal (the default-case fallback).  `getAddress`
returns an address and leaves the state untouched by construction. -/
theorem getAddress_resolution :
    ∀ st : LP50XX,
      st.getAddress EAddressType.Normal = st.i2c_address ∧
      st.getAddress EAddressType.Broadcast = st.i2c_address_broadcast ∧
      ∀ v : Nat, v ≠ EAddressType.Broadcast →
        st.getAddress v = st.getAddress EAddressType.Normal := by
  intro st
  refine ⟨rfl, rfl, ?_⟩
  intro v hv
  simp only [LP50XX.getAddress]
  rw [if_neg hv, if_neg (by decide : ¬ (EAddressType.Normal = EAddressType.Broadcast))]

/-- Witness for C2 at a concrete state and the unrecognized selector 5. -/
theorem getAddress_resolution_witness :
    (5 : Nat) ≠ EAddressType.Broadcast ∧
    LP50XX.getAddress { i2c_address := 0x14 } 5 =
      LP50XX.getAddress { i2c_address := 0x14 } EAddressType.Normal :=
  ⟨by decide, (getAddress_resolution { i2c_address := 0x14 }).2.2 5 (by decide)⟩

/-- C3: Begin(address) stores the address as the primary address and emits,
in this exact order: bus initialisation, the enable pin driven high when one
is configured, a 500 microsecond delay, and one write of the byte 0x40 to
DEVICE_CONFIG0 at the primary address. -/
theorem Begin_sequence :
    ∀ (st : LP50XX) (address : Nat) (wOut : Bool),
      (LP50XX.Begin st address wOut).chip.i2c_address = address ∧
      (st.enable_pin ≠ 0xFF →
        (LP50XX.Begin st address wOut).trace =
          [Event.i2cInit,
           Event.digitalWrite st.enable_pin true,
           Event.delayMicroseconds 500,
           Event.i2cWriteByte address DEVICE_CONFIG0 0x40]) ∧
      (st.enable_pin = 0xFF →
        (LP50XX.Begin st address wOut).trace =
          [Event.i2cInit,
           Event.delayMicroseconds 500,
           Event.i2cWriteByte address DEVICE_CONFIG0 0x40]) := by
  intro st address wOut
  refine ⟨rfl, ?_, ?_⟩ <;> intro h <;> simp [LP50XX.Begin, h]

/-- Witness for C3 at a concrete state with enable pin 2. -/
theorem Begin_sequence_witness :
    ({ i2c_address := 0, enable_pin := 2 } : LP50XX).enable_pin ≠ 0xFF ∧
    (LP50XX.Begin { i2c_address := 0, enable_pin := 2 } 0x14 false).trace =
      [Event.i2cInit,
       Event.digitalWrite 2 true,
       Event.delayMicroseconds 500,
       Event.i2cWriteByte 0x14 DEVICE_CONFIG0 0x40] :=
  ⟨by decide, (Begin_sequence { i2c_address := 0, enable_pin := 2 } 0x14 false).2.1 (by decide)⟩

/-- C4: Begin reports success unconditionally: for every state, every
address argument and every outcome of the underlying bus write (which the
source discards), the returned boolean is true. -/
theorem Begin_returns_true :
    ∀ (st : LP50XX) (address : Nat) (wOut : Bool),
      (LP50XX.Begin st address wOut).ret = true :=
  fun _ _ _ => rfl

/-- C5: Reset() with an enable pin configured emits, in this exact order:
pin low, 10 ms delay, pin high, 500 us delay, one write of 0xFF to
RESET_REGISTERS, one write of 0x40 to DEVICE_CONFIG0; without an enable pin
the pin and delay steps are skipped but the two writes still occur in that
order. -/
theorem Reset_sequence :
    ∀ st : LP50XX,
      (st.enable_pin ≠ 0xFF →
        st.Reset =
          [Event.digitalWrite st.enable_pin false,
           Event.delay 10,
           Event.digitalWrite st.enable_pin true,
           Event.delayMicroseconds 500,
           Event.i2cWriteByte st.i2c_address RESET_REGISTERS 0xFF,
           Event.i2cWriteByte st.i2c_address DEVICE_CONFIG0 0x40]) ∧
      (st.enable_pin = 0xFF →
        st.Reset =
          [Event.i2cWriteByte st.i2c_address RESET_REGISTERS 0xFF,
           Event.i2cWriteByte st.i2c_address DEVICE_CONFIG0 0x40]) := by
  intro st
  constructor <;> intro h <;>
    simp [LP50XX.Reset, LP50XX.ResetRegisters, LP50XX.getAddress, EAddressType.Normal,
      EAddressType.Broadcast, h]

/-- Witness for C5 at a concrete state with enable pin 7. -/
theorem Reset_sequence_witness :
    ({ i2c_address := 0x14, enable_pin := 7 } : LP50XX).enable_pin ≠ 0xFF ∧
    LP50XX.Reset { i2c_address := 0x14, enable_pin := 7 } =
      [Event.digitalWrite 7 false,
       Event.delay 10,
       Event.digitalWrite 7 true,
       Event.delayMicroseconds 500,
       Event.i2cWriteByte 0x14 RESET_REGISTERS 0xFF,
       Event.i2cWriteByte 0x14 DEVICE_CONFIG0 0x40] :=
  ⟨by decide, (Reset_sequence { i2c_address := 0x14, enable_pin := 7 }).1 (by decide)⟩

/-- C6: Each of the six bit-field setters (SetScaling bit 5, SetPowerSaving
bit 4, SetAutoIncrement bit 3, SetPWMDithering bit 2, SetMaxCurrentOption
bit 1, SetGlobalLedOff bit 0) issues one read of DEVICE_CONFIG1 followed by
one write whose byte has the setter's designated bit equal to the
corresponding bit of the input and every other bit identical to the byte as
read. -/
theorem setters_single_bit :
    setterSpec 5 LP50XX.SetScaling ∧
    setterSpec 4 LP50XX.SetPowerSaving ∧
    setterSpec 3 LP50XX.SetAutoIncrement ∧
    setterSpec 2 LP50XX.SetPWMDithering ∧
    setterSpec 1 LP50XX.SetMaxCurrentOption ∧
    setterSpec 0 LP50XX.SetGlobalLedOff := by
  refine ⟨?_, ?_, ?_, ?_, ?_, ?_⟩
  · exact fun st input buff hb =>
      ⟨_, rfl, configBitWrite_testBit_self 5 input buff (by norm_num),
        fun j hj => configBitWrite_testBit_other 5 input buff j hb hj⟩
  · exact fun st input buff hb =>
      ⟨_, rfl, configBitWrite_testBit_self 4 input buff (by norm_num),
        fun j hj => configBitWrite_testBit_other 4 input buff j hb hj⟩
  · exact fun st input buff hb =>
      ⟨_, rfl, configBitWrite_testBit_self 3 input buff (by norm_num),
        fun j hj => configBitWrite_testBit_other 3 input buff j hb hj⟩
  · exact fun st input buff hb =>
      ⟨_, rfl, configBitWrite_testBit_self 2 input buff (by norm_num),
        fun j hj => configBitWrite_testBit_other 2 input buff j hb hj⟩
  · exact fun st input buff hb =>
      ⟨_, rfl, configBitWrite_testBit_self 1 input buff (by norm_num),
        fun j hj => configBitWrite_testBit_other 1 input buff j hb hj⟩
  · exact fun st input buff hb =>
      ⟨_, rfl, configBitWrite_testBit_self 0 input buff (by norm_num),
        fun j hj => configBitWrite_testBit_other 0 input buff j hb hj⟩

/-- Witness for C6: SetAutoIncrement(AUTO_INC_ON = 8) against a read byte of
0 at a concrete state. -/
theorem setters_single_bit_witness :
    ∃ v,
      LP50XX.SetAutoIncrement { i2c_address := 0x14 } 8 0 =
        [Event.i2cReadByte 0x14 DEVICE_CONFIG1 0,
         Event.i2cWriteByte 0x14 DEVICE_CONFIG1 v] ∧
      v.testBit 3 = (8 : Nat).testBit 3 ∧
      ∀ j, j ≠ 3 → v.testBit j = (0 : Nat).testBit j :=
  setters_single_bit.2.2.1 { i2c_address := 0x14 } 8 0 (by decide)

/-- C7: SetBankColor and SetLEDColor each first run
SetAutoIncrement(AUTO_INC_ON) — whose written byte has bit 3 set — and then
issue exactly one 3-byte burst write (the only burst event of the trace),
starting at BANK_A_COLOR for the bank operation and at
`OUT0_COLOR + led * 3` for the LED operation, each burst carrying the three
bytes permuted by a single `colorBuff` application of the stored channel
order, the same permutation for both operations. -/
theorem color_ops_burst :
    ∀ (st : LP50XX) (led r g b addressType buff : Nat),
      st.SetBankColor r g b addressType buff =
        st.SetAutoIncrement AUTO_INC_ON buff
          ++ [Event.i2cWriteMulti (st.getAddress addressType) BANK_A_COLOR
                (colorBuff st.led_configuration r g b)] ∧
      st.SetLEDColor led r g b addressType buff =
        st.SetAutoIncrement AUTO_INC_ON buff
          ++ [Event.i2cWriteMulti (st.getAddress addressType) (u8 (OUT0_COLOR + led * 3))
                (colorBuff st.led_configuration r g b)] ∧
      (st.SetBankColor r g b addressType buff).filter Event.isBurst =
        [Event.i2cWriteMulti (st.getAddress addressType) BANK_A_COLOR
          (colorBuff st.led_configuration r g b)] ∧
      (st.SetLEDColor led r g b addressType buff).filter Event.isBurst =
        [Event.i2cWriteMulti (st.getAddress addressType) (u8 (OUT0_COLOR + led * 3))
          (colorBuff st.led_configuration r g b)] ∧
      (colorBuff st.led_configuration r g b).length = 3 ∧
      (configBitWrite 3 AUTO_INC_ON buff).testBit 3 = true := by
  intro st led r g b addressType buff
  refine ⟨rfl, rfl, rfl, rfl, ?_, ?_⟩
  · cases st.led_configuration <;> rfl
  · rw [configBitWrite_testBit_self 3 AUTO_INC_ON buff (by norm_num)]
    decide

/-- C8 as stated is false: Configure masks the flags with 0x3F, so the byte
written is not the caller's flags whenever a bit above bit 5 is set; at
flags = 0xFF the write carries 0x3F, not 0xFF. -/
theorem Configure_counterexample :
    ¬ (LP50XX.Configure { i2c_address := 0x14 } 0xFF EAddressType.Normal =
        [Event.i2cWriteByte 0x14 DEVICE_CONFIG1 0xFF]) := by
  decide

/-- C8 amended: for every flags byte and every selector, Configure issues no
read and exactly one write to DEVICE_CONFIG1 at the resolved address, whose
byte is the caller's flags masked to the six configuration bits
(`flags & 0x3F`). -/
theorem Configure_single_write :
    ∀ (st : LP50XX) (flags addressType : Nat),
      st.Configure flags addressType =
        [Event.i2cWriteByte (st.getAddress addressType) DEVICE_CONFIG1 (flags &&& 0x3F)] :=
  fun _ _ _ => rfl

/-- C9: SetLEDBrightness issues exactly one single-byte write of the value
to `LED0_BRIGHTNESS + led` and SetOutputColor exactly one single-byte write
to `OUT0_COLOR + output`, for every index, with no range validation: the
register is raw arithmetic on the index, truncated to a uint8_t register
parameter, and within the byte range the truncation is the identity. -/
theorem single_byte_writes :
    ∀ (st : LP50XX) (led output value addressType : Nat),
      st.SetLEDBrightness led value addressType =
        [Event.i2cWriteByte (st.getAddress addressType)
          ((LED0_BRIGHTNESS + led) % 256) value] ∧
      st.SetOutputColor output value addressType =
        [Event.i2cWriteByte (st.getAddress addressType)
          ((OUT0_COLOR + output) % 256) value] ∧
      (LED0_BRIGHTNESS + led < 256 → (LED0_BRIGHTNESS + led) % 256 = LED0_BRIGHTNESS + led) ∧
      (OUT0_COLOR + output < 256 → (OUT0_COLOR + output) % 256 = OUT0_COLOR + output) := by
  intro st led output value addressType
  exact ⟨rfl, rfl, fun h => Nat.mod_eq_of_lt h, fun h => Nat.mod_eq_of_lt h⟩

/-- Witness for C9 at led = 3 and output = 11 on a concrete state. -/
theorem single_byte_writes_witness :
    LED0_BRIGHTNESS + 3 < 256 ∧ OUT0_COLOR + 11 < 256 ∧
    (LED0_BRIGHTNESS + 3) % 256 = LED0_BRIGHTNESS + 3 ∧
    (OUT0_COLOR + 11) % 256 = OUT0_COLOR + 11 :=
  ⟨by decide, by decide,
    (single_byte_writes { i2c_address := 0x14 } 3 11 0x80 EAddressType.Normal).2.2.1
      (by decide),
    (single_byte_writes { i2c_address := 0x14 } 3 11 0x80 EAddressType.Normal).2.2.2
      (by decide)⟩

/-- C10: In SetBankColor and SetLEDColor the auto-increment-forcing read and
write of DEVICE_CONFIG1 (the first two trace events) are addressed to the
primary address — the address Normal resolves to — for every selector value,
Broadcast included; the selector affects only the remaining burst write. -/
theorem autoinc_uses_primary_address :
    ∀ (st : LP50XX) (led r g b addressType buff : Nat),
      (st.SetBankColor r g b addressType buff).take 2 =
        [Event.i2cReadByte st.i2c_address DEVICE_CONFIG1 buff,
         Event.i2cWriteByte st.i2c_address DEVICE_CONFIG1
           (configBitWrite 3 AUTO_INC_ON buff)] ∧
      (st.SetLEDColor led r g b addressType buff).take 2 =
        [Event.i2cReadByte st.i2c_address DEVICE_CONFIG1 buff,
         Event.i2cWriteByte st.i2c_address DEVICE_CONFIG1
           (configBitWrite 3 AUTO_INC_ON buff)] ∧
      st.getAddress EAddressType.Normal = st.i2c_address ∧
      (st.SetBankColor r g b addressType buff).drop 2 =
        [Event.i2cWriteMulti (st.getAddress addressType) BANK_A_COLOR
          (colorBuff st.led_configuration r g b)] ∧
      (st.SetLEDColor led r g b addressType buff).drop 2 =
        [Event.i2cWriteMulti (st.getAddress addressType) (u8 (OUT0_COLOR + led * 3))
          (colorBuff st.led_configuration r g b)] :=
  fun _ _ _ _ _ _ _ => ⟨rfl, rfl, rfl, rfl, rfl⟩
